import Mathlib

/-!
Verification of the `conditional` package of the huma repository: ETag
normalization (`trimETag`), conditional-request parameters (`Params`), and
the precondition evaluation (`Params.PreconditionFailed`), together with
`Params.Resolve` and `Params.HasConditionalParams`.

Go values are embedded as follows: Go strings become Lean `String`;
`time.Time` becomes `GoTime`, a wrapper around an `Int` instant where the
zero value (`IsZero`) is instant 0 and `After` is strict order on instants;
`[]string` becomes `List String`.  The `huma.Context` side effects of
`PreconditionFailed` (`AddError`, `WriteError`, `WriteHeader`) are
recorded in the returned `EvalResult` instead of being performed: `errors`
is the sequence of `ErrorDetail` values passed to `AddError` in order, and
`write` records the response written, if any.
-/

namespace Conditional

/-- Embeds Go `time.Time` for the purposes of the conditional package: an
instant on a totally ordered time line.  Only `IsZero` and `After` are used
by the source. -/
structure GoTime where
  ns : Int
deriving DecidableEq, Repr

/-- Go `Time.IsZero`: the zero instant is the zero `time.Time` value. -/
def GoTime.isZero (t : GoTime) : Bool := t.ns == 0

/-- Go `t.After(u)`: whether instant `t` is strictly after instant `u`. -/
def GoTime.after (t u : GoTime) : Bool := u.ns < t.ns

/-- Embeds Go `t.Format(http.TimeFormat)` as a pure function of the
instant.  No claim depends on the exact rendered text, only on the fact
that it is a deterministic function of the time value, so the instant's
numeric value stands in for the formatted date string. -/
def GoTime.formatHTTP (t : GoTime) : String := toString t.ns

/-- Go `strings.Trim(value, "\"")` for the quote-character cutset: removes
all leading and all trailing quote characters. -/
def trimQuotes (cs : List Char) : List Char :=
  ((cs.dropWhile (· == '"')).reverse.dropWhile (· == '"')).reverse

/-- Source `trimETag`: removes the quotes and the `W/` marker from incoming
ETag values.  The Go code drops the two leading `W/` bytes only when
`strings.HasPrefix(value, "W/") && len(value) > 2`, then trims quotes. -/
def trimETag (value : String) : String :=
  let cs := value.data
  let cs := if cs.take 2 = ['W', '/'] ∧ 2 < cs.length then cs.drop 2 else cs
  ⟨trimQuotes cs⟩

/-- The `Value` field of a `huma.ErrorDetail` is `any` in Go; the
conditional package stores either a single string or the `[]string` list of
`If-Match` values there. -/
inductive EValue where
  | s : String → EValue
  | list : List String → EValue
deriving DecidableEq, Repr

/-- `huma.ErrorDetail` as used by the conditional package: a message, a
location path, and the offending value. -/
structure ErrorDetail where
  message : String
  location : String
  value : EValue
deriving DecidableEq, Repr

/-- The response written on the `huma.Context`, if any: `errorBody` models
`ctx.WriteError(status, text)` (a status plus an error body), `headerOnly`
models `ctx.WriteHeader(status)` (a status and no body). -/
inductive CtxWrite where
  | noWrite : CtxWrite
  | errorBody : Nat → String → CtxWrite
  | headerOnly : Nat → CtxWrite
deriving DecidableEq, Repr

/-- Source `Params`: conditional request headers plus the unexported
`isWrite` flag set by `Resolve`. -/
structure Params where
  ifMatch : List String
  ifNoneMatch : List String
  ifModifiedSince : GoTime
  ifUnmodifiedSince : GoTime
  isWrite : Bool
deriving DecidableEq, Repr

/-- Source `Params.Resolve`: switches on the request method and marks the
request as a write for POST, PUT, PATCH and DELETE; any other method leaves
the flag unchanged. -/
def Params.Resolve (p : Params) (method : String) : Params :=
  if method = "POST" ∨ method = "PUT" ∨ method = "PATCH" ∨ method = "DELETE" then
    { p with isWrite := true }
  else p

/-- Source `Params.HasConditionalParams`: true if any conditional request
header has been set. -/
def Params.HasConditionalParams (p : Params) : Bool :=
  p.ifMatch.length > 0 || p.ifNoneMatch.length > 0 ||
    !p.ifModifiedSince.isZero || !p.ifUnmodifiedSince.isZero

/-- Everything `PreconditionFailed` does: its boolean return value, the
errors it passed to `ctx.AddError` in order, and the response it wrote. -/
structure EvalResult where
  failed : Bool
  errors : List ErrorDetail
  write : CtxWrite
deriving DecidableEq, Repr

/-- One iteration of the source's `If-None-Match` loop: trim the supplied
value; on a match against the current ETag (or the `*` wildcard with an
existing resource) set the failed flag and, on writes, append an error. -/
def noneMatchStep (p : Params) (etag foundMsg : String)
    (acc : Bool × List ErrorDetail) (m : String) : Bool × List ErrorDetail :=
  let trimmed := trimETag m
  if trimmed == etag || (trimmed == "*" && etag != "") then
    (true,
      if p.isWrite then
        acc.2 ++ [⟨"If-None-Match: " ++ m ++ " precondition failed, " ++ foundMsg,
                   "request.headers.If-None-Match", EValue.s m⟩]
      else acc.2)
  else acc

/-- The source's `If-Match` block: if a non-empty list is given and none of
the passed ETags trims to the current resource's tag, set the failed flag
and, on writes, append an error. -/
def ifMatchStep (p : Params) (etag foundMsg : String)
    (acc : Bool × List ErrorDetail) : Bool × List ErrorDetail :=
  if p.ifMatch.length > 0 then
    let found := p.ifMatch.any (fun m => trimETag m == etag)
    if !found then
      (true,
        if p.isWrite then
          acc.2 ++ [⟨"If-Match precondition failed, " ++ foundMsg,
                     "request.headers.If-Match", EValue.list p.ifMatch⟩]
        else acc.2)
    else acc
  else acc

/-- The source's `If-Modified-Since` block: if a time was supplied and the
resource was not modified strictly after it, set the failed flag and, on
writes, append an error. -/
def modSinceStep (p : Params) (modified : GoTime)
    (acc : Bool × List ErrorDetail) : Bool × List ErrorDetail :=
  if !p.ifModifiedSince.isZero && !(modified.after p.ifModifiedSince) then
    (true,
      if p.isWrite then
        acc.2 ++ [⟨"If-Modified-Since: " ++ p.ifModifiedSince.formatHTTP ++
                    " precondition failed, resource was modified at " ++
                    modified.formatHTTP,
                  "request.headers.If-Modified-Since",
                  EValue.s p.ifModifiedSince.formatHTTP⟩]
      else acc.2)
  else acc

/-- The source's `If-Unmodified-Since` block: if a time was supplied and
the resource was modified strictly after it, set the failed flag and, on
writes, append an error. -/
def unmodSinceStep (p : Params) (modified : GoTime)
    (acc : Bool × List ErrorDetail) : Bool × List ErrorDetail :=
  if !p.ifUnmodifiedSince.isZero && modified.after p.ifUnmodifiedSince then
    (true,
      if p.isWrite then
        acc.2 ++ [⟨"If-Unmodified-Since: " ++ p.ifUnmodifiedSince.formatHTTP ++
                    " precondition failed, resource was modified at " ++
                    modified.formatHTTP,
                  "request.headers.If-Unmodified-Since",
                  EValue.s p.ifUnmodifiedSince.formatHTTP⟩]
      else acc.2)
  else acc

/-- Source `Params.PreconditionFailed`: evaluates the four conditional
checks in source order against the resource's current `etag` and
`modified` time, threading the `failed` flag and the accumulated
`ctx.AddError` calls through the four blocks, and returns whether the
request must be aborted together with the recorded `ctx` effects (see
`EvalResult`). -/
def Params.PreconditionFailed (p : Params) (etag : String) (modified : GoTime) :
    EvalResult :=
  let foundMsg :=
    if etag ≠ "" then "found resource with ETag " ++ etag
    else "found no existing resource"
  -- If-None-Match fails on the first match; `*` matches any existing value.
  let a1 := p.ifNoneMatch.foldl (noneMatchStep p etag foundMsg) (false, [])
  -- If-Match fails if none of the passed ETags matches the current resource.
  let a2 := ifMatchStep p etag foundMsg a1
  let a3 := modSinceStep p modified a2
  let a4 := unmodSinceStep p modified a3
  if a4.1 then
    { failed := true, errors := a4.2,
      write :=
        if p.isWrite then CtxWrite.errorBody 412 "Precondition Failed"
        else CtxWrite.headerOnly 304 }
  else
    { failed := false, errors := a4.2, write := CtxWrite.noWrite }

/-! ### Derived characterizations of the four checks

The following definitions re-express the per-check failure conditions and
error constructions of `Params.PreconditionFailed`; the lemma
`preconditionFailed_eq_evalSpec` proves that the translated source function
coincides with them, which powers the individual claim theorems. -/

/-- Whether one supplied `If-None-Match` value hits the current resource:
its trimmed form equals the ETag, or it is the `*` wildcard and a resource
exists. -/
def noneMatchHit (etag m : String) : Bool :=
  trimETag m == etag || (trimETag m == "*" && etag != "")

/-- The `If-None-Match` check fails when some listed value hits. -/
def noneMatchFails (p : Params) (etag : String) : Bool :=
  p.ifNoneMatch.any (noneMatchHit etag)

/-- The `If-Match` check fails when the list is non-empty and no listed
value trims to the current ETag. -/
def ifMatchFails (p : Params) (etag : String) : Bool :=
  decide (p.ifMatch.length > 0) && !(p.ifMatch.any (fun m => trimETag m == etag))

/-- The `If-Modified-Since` check fails when a time was supplied and the
modification time is not strictly after it. -/
def modSinceFails (p : Params) (modified : GoTime) : Bool :=
  !p.ifModifiedSince.isZero && !(modified.after p.ifModifiedSince)

/-- The `If-Unmodified-Since` check fails when a time was supplied and the
modification time is strictly after it. -/
def unmodSinceFails (p : Params) (modified : GoTime) : Bool :=
  !p.ifUnmodifiedSince.isZero && modified.after p.ifUnmodifiedSince

/-- The `foundMsg` string computed at the top of `PreconditionFailed`. -/
def foundMsgOf (etag : String) : String :=
  if etag ≠ "" then "found resource with ETag " ++ etag
  else "found no existing resource"

/-- The error added for one matching `If-None-Match` value. -/
def mkNoneMatchErr (foundMsg m : String) : ErrorDetail :=
  ⟨"If-None-Match: " ++ m ++ " precondition failed, " ++ foundMsg,
   "request.headers.If-None-Match", EValue.s m⟩

/-- The error added for a failed `If-Match` check. -/
def mkIfMatchErr (p : Params) (foundMsg : String) : ErrorDetail :=
  ⟨"If-Match precondition failed, " ++ foundMsg,
   "request.headers.If-Match", EValue.list p.ifMatch⟩

/-- The error added for a failed `If-Modified-Since` check. -/
def mkModSinceErr (p : Params) (modified : GoTime) : ErrorDetail :=
  ⟨"If-Modified-Since: " ++ p.ifModifiedSince.formatHTTP ++
     " precondition failed, resource was modified at " ++ modified.formatHTTP,
   "request.headers.If-Modified-Since", EValue.s p.ifModifiedSince.formatHTTP⟩

/-- The error added for a failed `If-Unmodified-Since` check. -/
def mkUnmodSinceErr (p : Params) (modified : GoTime) : ErrorDetail :=
  ⟨"If-Unmodified-Since: " ++ p.ifUnmodifiedSince.formatHTTP ++
     " precondition failed, resource was modified at " ++ modified.formatHTTP,
   "request.headers.If-Unmodified-Since", EValue.s p.ifUnmodifiedSince.formatHTTP⟩

/-- The error list the evaluation passes to `ctx.AddError`, re-expressed
check-by-check: one error per matching `If-None-Match` value and one error
per other failed check, each only on writes, in source order. -/
def specErrors (p : Params) (etag : String) (t : GoTime) : List ErrorDetail :=
  (if p.isWrite then
    (p.ifNoneMatch.filter (noneMatchHit etag)).map (mkNoneMatchErr (foundMsgOf etag))
   else []) ++
  ((if p.isWrite && ifMatchFails p etag then [mkIfMatchErr p (foundMsgOf etag)] else []) ++
   ((if p.isWrite && modSinceFails p t then [mkModSinceErr p t] else []) ++
    (if p.isWrite && unmodSinceFails p t then [mkUnmodSinceErr p t] else [])))

/-- The whole evaluation, re-expressed check-by-check. -/
def evalSpec (p : Params) (etag : String) (t : GoTime) : EvalResult :=
  let failed := noneMatchFails p etag || ifMatchFails p etag ||
    modSinceFails p t || unmodSinceFails p t
  { failed := failed,
    errors := specErrors p etag t,
    write :=
      if failed then
        if p.isWrite then CtxWrite.errorBody 412 "Precondition Failed"
        else CtxWrite.headerOnly 304
      else CtxWrite.noWrite }

lemma noneMatchStep_eq (p : Params) (etag foundMsg : String)
    (acc : Bool × List ErrorDetail) (m : String) :
    noneMatchStep p etag foundMsg acc m =
      if noneMatchHit etag m then
        (true, if p.isWrite then acc.2 ++ [mkNoneMatchErr foundMsg m] else acc.2)
      else acc := rfl

lemma foldl_noneMatchStep (p : Params) (etag foundMsg : String) (l : List String)
    (b : Bool) (es : List ErrorDetail) :
    l.foldl (noneMatchStep p etag foundMsg) (b, es) =
      (b || l.any (noneMatchHit etag),
        es ++ if p.isWrite then
          (l.filter (noneMatchHit etag)).map (mkNoneMatchErr foundMsg) else []) := by
  induction l generalizing b es with
  | nil => simp
  | cons m tl ih =>
      rw [List.foldl_cons, noneMatchStep_eq]
      by_cases h : noneMatchHit etag m
      · rw [if_pos h, ih]
        by_cases hw : p.isWrite
        · simp [h, hw, List.filter_cons]
        · simp [h, hw]
      · rw [if_neg h, ih]
        simp only [List.any_cons, List.filter_cons]
        rw [if_neg h]
        simp [Bool.eq_false_iff.mpr h]

lemma ifMatchStep_eq (p : Params) (etag foundMsg : String)
    (acc : Bool × List ErrorDetail) :
    ifMatchStep p etag foundMsg acc =
      (acc.1 || ifMatchFails p etag,
        acc.2 ++ if p.isWrite && ifMatchFails p etag then [mkIfMatchErr p foundMsg]
          else []) := by
  unfold ifMatchStep ifMatchFails mkIfMatchErr
  by_cases hL : p.ifMatch.length > 0 <;>
    by_cases hF : (p.ifMatch.any fun m => trimETag m == etag) = true <;>
    by_cases hw : p.isWrite <;>
    simp [hL, hF, hw]

lemma modSinceStep_eq (p : Params) (t : GoTime) (acc : Bool × List ErrorDetail) :
    modSinceStep p t acc =
      (acc.1 || modSinceFails p t,
        acc.2 ++ if p.isWrite && modSinceFails p t then [mkModSinceErr p t]
          else []) := by
  unfold modSinceStep modSinceFails mkModSinceErr
  by_cases hM : (!p.ifModifiedSince.isZero && !(t.after p.ifModifiedSince)) = true <;>
    by_cases hw : p.isWrite <;>
    simp [hM, hw]

lemma unmodSinceStep_eq (p : Params) (t : GoTime) (acc : Bool × List ErrorDetail) :
    unmodSinceStep p t acc =
      (acc.1 || unmodSinceFails p t,
        acc.2 ++ if p.isWrite && unmodSinceFails p t then [mkUnmodSinceErr p t]
          else []) := by
  unfold unmodSinceStep unmodSinceFails mkUnmodSinceErr
  by_cases hU : (!p.ifUnmodifiedSince.isZero && t.after p.ifUnmodifiedSince) = true <;>
    by_cases hw : p.isWrite <;>
    simp [hU, hw]

lemma preconditionFailed_eq_evalSpec (p : Params) (etag : String) (t : GoTime) :
    p.PreconditionFailed etag t = evalSpec p etag t := by
  unfold Params.PreconditionFailed
  simp only [foldl_noneMatchStep, ifMatchStep_eq, modSinceStep_eq, unmodSinceStep_eq,
    Bool.false_or, List.nil_append, List.append_assoc]
  have hmsg : (if etag ≠ "" then "found resource with ETag " ++ etag
      else "found no existing resource") = foundMsgOf etag := rfl
  rw [hmsg]
  unfold evalSpec specErrors noneMatchFails
  cases hX : (p.ifNoneMatch.any (noneMatchHit etag) || ifMatchFails p etag ||
      modSinceFails p t || unmodSinceFails p t) <;>
    simp [hX]

/-- `(p.PreconditionFailed etag t).failed` is the disjunction of the four
check failures. -/
lemma preconditionFailed_failed (p : Params) (etag : String) (t : GoTime) :
    (p.PreconditionFailed etag t).failed =
      (noneMatchFails p etag || ifMatchFails p etag ||
        modSinceFails p t || unmodSinceFails p t) := by
  rw [preconditionFailed_eq_evalSpec]; rfl

/-- `(p.PreconditionFailed etag t).errors` is the check-by-check list. -/
lemma preconditionFailed_errors (p : Params) (etag : String) (t : GoTime) :
    (p.PreconditionFailed etag t).errors = specErrors p etag t := by
  rw [preconditionFailed_eq_evalSpec]; rfl

/-- `(p.PreconditionFailed etag t).write` in terms of the failure flag. -/
lemma preconditionFailed_write (p : Params) (etag : String) (t : GoTime) :
    (p.PreconditionFailed etag t).write =
      (if (p.PreconditionFailed etag t).failed then
        if p.isWrite then CtxWrite.errorBody 412 "Precondition Failed"
        else CtxWrite.headerOnly 304
      else CtxWrite.noWrite) := by
  rw [preconditionFailed_eq_evalSpec]; rfl

lemma any_congr_of_map_trim (g : String → Bool) {l₁ l₂ : List String}
    (h : l₁.map trimETag = l₂.map trimETag) :
    l₁.any (fun m => g (trimETag m)) = l₂.any (fun m => g (trimETag m)) := by
  have h1 : l₁.any (fun m => g (trimETag m)) = (l₁.map trimETag).any g := by
    rw [List.any_map]; rfl
  have h2 : l₂.any (fun m => g (trimETag m)) = (l₂.map trimETag).any g := by
    rw [List.any_map]; rfl
  rw [h1, h2, h]

/-! ### Claims -/

/-- Claim C1, counterexample: the resource's own tag is not normalized by
the code.  A resource tag stored as `"abc"` (with quote characters) and a
supplied `If-Match` value `"abc"` have equal normalized forms, yet the
evaluation blocks, while the same supplied value against the bare stored
tag `abc` proceeds. -/
theorem c1_resource_tag_not_normalized_cex :
    trimETag "\"abc\"" = "abc" ∧
    (Params.PreconditionFailed ⟨["\"abc\""], [], ⟨0⟩, ⟨0⟩, true⟩ "\"abc\"" ⟨1⟩).failed
      = true ∧
    (Params.PreconditionFailed ⟨["\"abc\""], [], ⟨0⟩, ⟨0⟩, true⟩ "abc" ⟨1⟩).failed
      = false := by
  decide

/-- Claim C1 (amended): every supplied entity-tag is normalized by
`trimETag` (leading `W/` stripped when more follows, then surrounding
quotes) before any comparison — the blocked/proceed outcome depends on the
supplied values only through their normalized forms — while the resource's
own tag is compared verbatim, so a supplied tag matches exactly when its
normalized form equals the resource's tag as stored. -/
theorem c1_supplied_tags_normalized_resource_tag_raw :
    (∀ (p q : Params) (etag : String) (t : GoTime),
      p.ifMatch.map trimETag = q.ifMatch.map trimETag →
      p.ifNoneMatch.map trimETag = q.ifNoneMatch.map trimETag →
      p.ifModifiedSince = q.ifModifiedSince →
      p.ifUnmodifiedSince = q.ifUnmodifiedSince →
      (p.PreconditionFailed etag t).failed = (q.PreconditionFailed etag t).failed) ∧
    trimETag "W/\"abc\"" = "abc" ∧
    (Params.PreconditionFailed ⟨["W/\"abc\""], [], ⟨0⟩, ⟨0⟩, true⟩ "abc" ⟨1⟩).failed
      = false := by
  refine ⟨?_, by decide, by decide⟩
  intro p q etag t hM hN hMS hUS
  rw [preconditionFailed_failed, preconditionFailed_failed]
  have e1 : noneMatchFails p etag = noneMatchFails q etag := by
    unfold noneMatchFails
    exact any_congr_of_map_trim (fun s => s == etag || (s == "*" && etag != "")) hN
  have e2 : ifMatchFails p etag = ifMatchFails q etag := by
    unfold ifMatchFails
    have l1 : p.ifMatch.length = q.ifMatch.length := by
      rw [← List.length_map p.ifMatch trimETag, hM, List.length_map]
    have a1 : (p.ifMatch.any fun m => trimETag m == etag)
        = (q.ifMatch.any fun m => trimETag m == etag) :=
      any_congr_of_map_trim (fun s => s == etag) hM
    rw [l1, a1]
  unfold modSinceFails unmodSinceFails
  rw [e1, e2, hMS, hUS]

theorem c1_supplied_tags_normalized_resource_tag_raw_wit :
    (Params.PreconditionFailed ⟨["\"x\""], [], ⟨0⟩, ⟨0⟩, true⟩ "x" ⟨2⟩).failed =
      (Params.PreconditionFailed ⟨["x"], [], ⟨0⟩, ⟨0⟩, false⟩ "x" ⟨2⟩).failed :=
  c1_supplied_tags_normalized_resource_tag_raw.1
    ⟨["\"x\""], [], ⟨0⟩, ⟨0⟩, true⟩ ⟨["x"], [], ⟨0⟩, ⟨0⟩, false⟩ "x" ⟨2⟩
    (by decide) (by decide) rfl rfl

/-- Claim C2, counterexample: a write whose `If-None-Match` list holds two
values that both normalize to the resource's tag produces two errors
although only one of the four checks (`If-None-Match`) failed, so the
outcome does not carry exactly one `ErrorDetail` per failed check. -/
theorem c2_duplicate_none_match_two_errors_cex :
    (Params.PreconditionFailed ⟨[], ["\"abc\"", "W/\"abc\""], ⟨0⟩, ⟨0⟩, true⟩
        "abc" ⟨1⟩).failed = true ∧
    (Params.PreconditionFailed ⟨[], ["\"abc\"", "W/\"abc\""], ⟨0⟩, ⟨0⟩, true⟩
        "abc" ⟨1⟩).errors.length = 2 ∧
    ifMatchFails ⟨[], ["\"abc\"", "W/\"abc\""], ⟨0⟩, ⟨0⟩, true⟩ "abc" = false ∧
    modSinceFails ⟨[], ["\"abc\"", "W/\"abc\""], ⟨0⟩, ⟨0⟩, true⟩ ⟨1⟩ = false ∧
    unmodSinceFails ⟨[], ["\"abc\"", "W/\"abc\""], ⟨0⟩, ⟨0⟩, true⟩ ⟨1⟩ = false := by
  decide

/-- Claim C2 (amended): on a write where at least one check fails, the
outcome is blocked and carries at least one `ErrorDetail` per failed check
— exactly one for `If-Match`, `If-Modified-Since` and
`If-Unmodified-Since`, and one per matching listed value for
`If-None-Match` — with each message naming its header; the four checks are
evaluated independently, so the error list is the concatenation of the
contributions of all four checks in order. -/
theorem c2_write_blocked_error_per_failed_check :
    ∀ (p : Params) (etag : String) (t : GoTime), p.isWrite = true →
      ((p.PreconditionFailed etag t).errors =
        (p.ifNoneMatch.filter (noneMatchHit etag)).map (mkNoneMatchErr (foundMsgOf etag)) ++
        ((if ifMatchFails p etag = true then [mkIfMatchErr p (foundMsgOf etag)] else []) ++
         ((if modSinceFails p t = true then [mkModSinceErr p t] else []) ++
          (if unmodSinceFails p t = true then [mkUnmodSinceErr p t] else [])))) ∧
      ((p.PreconditionFailed etag t).failed = true ↔
        (p.PreconditionFailed etag t).errors ≠ []) ∧
      (∀ d ∈ (p.PreconditionFailed etag t).errors,
        (∃ rest, d.message = "If-None-Match" ++ rest ∧
          d.location = "request.headers.If-None-Match") ∨
        (∃ rest, d.message = "If-Match" ++ rest ∧
          d.location = "request.headers.If-Match") ∨
        (∃ rest, d.message = "If-Modified-Since" ++ rest ∧
          d.location = "request.headers.If-Modified-Since") ∨
        (∃ rest, d.message = "If-Unmodified-Since" ++ rest ∧
          d.location = "request.headers.If-Unmodified-Since")) := by
  intro p etag t hw
  refine ⟨?_, ?_, ?_⟩
  · rw [preconditionFailed_errors]
    unfold specErrors
    simp [hw]
  · rw [preconditionFailed_failed, preconditionFailed_errors]
    unfold specErrors noneMatchFails
    cases h1 : ifMatchFails p etag <;>
      cases h2 : modSinceFails p t <;>
      cases h3 : unmodSinceFails p t <;>
      simp [hw, h1, h2, h3, List.any_eq_true, List.filter_eq_nil_iff]
  · intro d hd
    rw [preconditionFailed_errors] at hd
    unfold specErrors at hd
    rcases List.mem_append.mp hd with hd1 | hd2
    · rw [if_pos hw] at hd1
      obtain ⟨m, _, rfl⟩ := List.mem_map.mp hd1
      refine Or.inl ⟨": " ++ (m ++ (" precondition failed, " ++ foundMsgOf etag)),
        ?_, rfl⟩
      show "If-None-Match: " ++ m ++ " precondition failed, " ++ foundMsgOf etag = _
      simp only [String.append_assoc]
      rw [← String.append_assoc "If-None-Match" ": "]
      rfl
    · rcases List.mem_append.mp hd2 with hd3 | hd4
      · have : d = mkIfMatchErr p (foundMsgOf etag) := by
          rcases Decidable.em ((p.isWrite && ifMatchFails p etag) = true) with h | h
          · rw [if_pos h] at hd3; simpa using hd3
          · rw [if_neg h] at hd3; simp at hd3
        subst this
        refine Or.inr (Or.inl ⟨" precondition failed, " ++ foundMsgOf etag, ?_, rfl⟩)
        show "If-Match precondition failed, " ++ foundMsgOf etag = _
        rw [← String.append_assoc "If-Match" " precondition failed, "]
        rfl
      · rcases List.mem_append.mp hd4 with hd5 | hd6
        · have : d = mkModSinceErr p t := by
            rcases Decidable.em ((p.isWrite && modSinceFails p t) = true) with h | h
            · rw [if_pos h] at hd5; simpa using hd5
            · rw [if_neg h] at hd5; simp at hd5
          subst this
          refine Or.inr (Or.inr (Or.inl ⟨": " ++ (p.ifModifiedSince.formatHTTP ++
            (" precondition failed, resource was modified at " ++ t.formatHTTP)),
            ?_, rfl⟩))
          show "If-Modified-Since: " ++ p.ifModifiedSince.formatHTTP ++
            " precondition failed, resource was modified at " ++ t.formatHTTP = _
          simp only [String.append_assoc]
          rw [← String.append_assoc "If-Modified-Since" ": "]
          rfl
        · have : d = mkUnmodSinceErr p t := by
            rcases Decidable.em ((p.isWrite && unmodSinceFails p t) = true) with h | h
            · rw [if_pos h] at hd6; simpa using hd6
            · rw [if_neg h] at hd6; simp at hd6
          subst this
          refine Or.inr (Or.inr (Or.inr ⟨": " ++ (p.ifUnmodifiedSince.formatHTTP ++
            (" precondition failed, resource was modified at " ++ t.formatHTTP)),
            ?_, rfl⟩))
          show "If-Unmodified-Since: " ++ p.ifUnmodifiedSince.formatHTTP ++
            " precondition failed, resource was modified at " ++ t.formatHTTP = _
          simp only [String.append_assoc]
          rw [← String.append_assoc "If-Unmodified-Since" ": "]
          rfl

theorem c2_write_blocked_error_per_failed_check_wit :
    (Params.PreconditionFailed ⟨[], ["\"x\""], ⟨0⟩, ⟨0⟩, true⟩ "x" ⟨1⟩).failed = true ↔
      (Params.PreconditionFailed ⟨[], ["\"x\""], ⟨0⟩, ⟨0⟩, true⟩ "x" ⟨1⟩).errors ≠ [] :=
  (c2_write_blocked_error_per_failed_check ⟨[], ["\"x\""], ⟨0⟩, ⟨0⟩, true⟩ "x" ⟨1⟩
    rfl).2.1

/-- Claim C3: when only `If-None-Match` data is supplied, the evaluation
blocks exactly when the resource's tag equals some listed normalized value
or the (normalized) literal `*` is listed while a resource exists; and,
concretely, resource tag `abc` with `If-None-Match: "abc"` on a write is
blocked with one error referencing `If-None-Match`, while the same
resource with only `If-None-Match: W/"xyz"` proceeds. -/
theorem c3_if_none_match_blocks_iff :
    (∀ (p : Params) (etag : String) (t : GoTime),
      p.ifMatch = [] → p.ifModifiedSince.isZero = true →
      p.ifUnmodifiedSince.isZero = true →
      ((p.PreconditionFailed etag t).failed = true ↔
        ∃ m ∈ p.ifNoneMatch, trimETag m = etag ∨ (trimETag m = "*" ∧ etag ≠ ""))) ∧
    (Params.PreconditionFailed ⟨[], ["\"abc\""], ⟨0⟩, ⟨0⟩, true⟩ "abc" ⟨1⟩).failed
      = true ∧
    (Params.PreconditionFailed ⟨[], ["\"abc\""], ⟨0⟩, ⟨0⟩, true⟩ "abc" ⟨1⟩).errors.length
      = 1 ∧
    (∀ d ∈ (Params.PreconditionFailed ⟨[], ["\"abc\""], ⟨0⟩, ⟨0⟩, true⟩ "abc" ⟨1⟩).errors,
      d.location = "request.headers.If-None-Match") ∧
    (Params.PreconditionFailed ⟨[], ["W/\"xyz\""], ⟨0⟩, ⟨0⟩, true⟩ "abc" ⟨1⟩).failed
      = false := by
  refine ⟨?_, by decide, by decide, by decide, by decide⟩
  intro p etag t h1 h2 h3
  rw [preconditionFailed_failed]
  unfold noneMatchFails noneMatchHit ifMatchFails modSinceFails unmodSinceFails
  simp [h1, h2, h3, List.any_eq_true]

theorem c3_if_none_match_blocks_iff_wit :
    (Params.PreconditionFailed ⟨[], ["z"], ⟨0⟩, ⟨0⟩, false⟩ "z" ⟨1⟩).failed = true :=
  (c3_if_none_match_blocks_iff.1 ⟨[], ["z"], ⟨0⟩, ⟨0⟩, false⟩ "z" ⟨1⟩
    rfl rfl rfl).mpr ⟨"z", by decide, Or.inl (by decide)⟩

/-- Claim C4: on a read (`isWrite = false`) the evaluation never records
any `ErrorDetail`, so a blocked read is a bare signal with an empty error
list; and whenever none of the four checks fails — in particular when no
conditional data is supplied — the evaluation proceeds (returns `false`,
records nothing, writes nothing). -/
theorem c4_read_blocked_empty_errors_and_no_fail_proceeds :
    ∀ (p : Params) (etag : String) (t : GoTime),
      (p.isWrite = false → (p.PreconditionFailed etag t).errors = []) ∧
      ((noneMatchFails p etag || ifMatchFails p etag || modSinceFails p t ||
          unmodSinceFails p t) = false →
        p.PreconditionFailed etag t =
          { failed := false, errors := [], write := CtxWrite.noWrite }) := by
  intro p etag t
  constructor
  · intro hw
    rw [preconditionFailed_errors]
    unfold specErrors
    simp [hw]
  · intro hX
    simp only [Bool.or_eq_false_iff] at hX
    obtain ⟨⟨⟨h1, h2⟩, h3⟩, h4⟩ := hX
    have h1a : p.ifNoneMatch.any (noneMatchHit etag) = false := h1
    have hall : ∀ a ∈ p.ifNoneMatch, noneMatchHit etag a = false := by
      simpa [List.any_eq_false] using h1a
    rw [preconditionFailed_eq_evalSpec]
    unfold evalSpec specErrors
    simp [h1, h2, h3, h4, List.filter_eq_nil_iff, hall]
    exact fun _ => hall

theorem c4_read_blocked_empty_errors_and_no_fail_proceeds_wit :
    (Params.PreconditionFailed ⟨[], ["p"], ⟨0⟩, ⟨0⟩, false⟩ "p" ⟨1⟩).errors = [] :=
  (c4_read_blocked_empty_errors_and_no_fail_proceeds
    ⟨[], ["p"], ⟨0⟩, ⟨0⟩, false⟩ "p" ⟨1⟩).1 rfl

/-- Claim C5: when only `If-Match` data is supplied, the evaluation blocks
exactly when the `If-Match` list is non-empty and no listed value's
normalized form equals the resource's tag; an empty list never causes a
failure. -/
theorem c5_if_match_fails_iff :
    ∀ (p : Params) (etag : String) (t : GoTime),
      p.ifNoneMatch = [] → p.ifModifiedSince.isZero = true →
      p.ifUnmodifiedSince.isZero = true →
      ((p.PreconditionFailed etag t).failed = true ↔
        (p.ifMatch ≠ [] ∧ ∀ m ∈ p.ifMatch, trimETag m ≠ etag)) := by
  intro p etag t h1 h2 h3
  rw [preconditionFailed_failed]
  unfold noneMatchFails ifMatchFails modSinceFails unmodSinceFails
  simp [h1, h2, h3, List.any_eq_false, List.length_pos]

theorem c5_if_match_fails_iff_wit :
    (Params.PreconditionFailed ⟨["\"q\""], [], ⟨0⟩, ⟨0⟩, true⟩ "x" ⟨1⟩).failed
      = true :=
  (c5_if_match_fails_iff ⟨["\"q\""], [], ⟨0⟩, ⟨0⟩, true⟩ "x" ⟨1⟩
    rfl rfl rfl).mpr ⟨by decide, by decide⟩

/-- Claim C6: with a supplied (non-zero) time and no other conditional
data, `If-Modified-Since` blocks exactly when the modification time is not
strictly after the supplied time, and `If-Unmodified-Since` blocks exactly
when it is strictly after; at equal times `If-Modified-Since` fails — a
read yields a blocked outcome with zero errors — and `If-Unmodified-Since`
passes. -/
theorem c6_time_checks_strict :
    (∀ (p : Params) (etag : String) (t : GoTime),
      p.ifMatch = [] → p.ifNoneMatch = [] → p.ifUnmodifiedSince.isZero = true →
      p.ifModifiedSince.isZero = false →
      ((p.PreconditionFailed etag t).failed = true ↔
        t.after p.ifModifiedSince = false)) ∧
    (∀ (p : Params) (etag : String) (t : GoTime),
      p.ifMatch = [] → p.ifNoneMatch = [] → p.ifModifiedSince.isZero = true →
      p.ifUnmodifiedSince.isZero = false →
      ((p.PreconditionFailed etag t).failed = true ↔
        t.after p.ifUnmodifiedSince = true)) ∧
    Params.PreconditionFailed ⟨[], [], ⟨5⟩, ⟨0⟩, false⟩ "x" ⟨5⟩ =
      { failed := true, errors := [], write := CtxWrite.headerOnly 304 } ∧
    (Params.PreconditionFailed ⟨[], [], ⟨0⟩, ⟨5⟩, false⟩ "x" ⟨5⟩).failed = false := by
  refine ⟨?_, ?_, by decide, by decide⟩
  · intro p etag t h1 h2 h3 h4
    rw [preconditionFailed_failed]
    unfold noneMatchFails ifMatchFails modSinceFails unmodSinceFails
    simp [h1, h2, h3, h4]
  · intro p etag t h1 h2 h3 h4
    rw [preconditionFailed_failed]
    unfold noneMatchFails ifMatchFails modSinceFails unmodSinceFails
    simp [h1, h2, h3, h4]

theorem c6_time_checks_strict_wit :
    (Params.PreconditionFailed ⟨[], [], ⟨7⟩, ⟨0⟩, false⟩ "x" ⟨7⟩).failed = true :=
  (c6_time_checks_strict.1 ⟨[], [], ⟨7⟩, ⟨0⟩, false⟩ "x" ⟨7⟩
    rfl rfl rfl rfl).mpr (by decide)

/-- Claim C7: the evaluation is a pure function of its inputs — all of its
effects are captured in the returned `EvalResult`, and two evaluations on
equal inputs produce equal outcomes, equal error lists and equal response
writes. -/
theorem c7_pure_function_deterministic :
    ∀ (p q : Params) (e f : String) (t u : GoTime), p = q → e = f → t = u →
      (p.PreconditionFailed e t).failed = (q.PreconditionFailed f u).failed ∧
      (p.PreconditionFailed e t).errors = (q.PreconditionFailed f u).errors ∧
      (p.PreconditionFailed e t).write = (q.PreconditionFailed f u).write := by
  rintro p q e f t u rfl rfl rfl
  exact ⟨rfl, rfl, rfl⟩

theorem c7_pure_function_deterministic_wit :
    (Params.PreconditionFailed ⟨[], [], ⟨0⟩, ⟨0⟩, false⟩ "a" ⟨0⟩).failed =
      (Params.PreconditionFailed ⟨[], [], ⟨0⟩, ⟨0⟩, false⟩ "a" ⟨0⟩).failed :=
  (c7_pure_function_deterministic ⟨[], [], ⟨0⟩, ⟨0⟩, false⟩ ⟨[], [], ⟨0⟩, ⟨0⟩, false⟩
    "a" "a" ⟨0⟩ ⟨0⟩ rfl rfl rfl).1

/-- Claim C8: starting from a non-write parameter set, `Resolve` marks the
request as a write exactly for the methods POST, PUT, PATCH and DELETE;
for every other method (including GET and HEAD) `isWrite` stays false. -/
theorem c8_resolve_write_methods :
    ∀ (p : Params) (method : String), p.isWrite = false →
      ((p.Resolve method).isWrite = true ↔
        (method = "POST" ∨ method = "PUT" ∨ method = "PATCH" ∨
          method = "DELETE")) := by
  intro p method h
  unfold Params.Resolve
  by_cases hm : method = "POST" ∨ method = "PUT" ∨ method = "PATCH" ∨
      method = "DELETE"
  · simp [hm]
  · simp [hm, h]

theorem c8_resolve_write_methods_wit :
    (Params.Resolve ⟨[], [], ⟨0⟩, ⟨0⟩, false⟩ "POST").isWrite = true :=
  (c8_resolve_write_methods ⟨[], [], ⟨0⟩, ⟨0⟩, false⟩ "POST" rfl).mpr (Or.inl rfl)

/-- Claim C9: whenever the evaluation reports a blocked outcome it writes
the response itself — status 412 with an error body on writes, status 304
with no body on reads — and whenever it proceeds it writes nothing. -/
theorem c9_blocked_writes_response :
    ∀ (p : Params) (etag : String) (t : GoTime),
      ((p.PreconditionFailed etag t).failed = true →
        (p.PreconditionFailed etag t).write =
          (if p.isWrite then CtxWrite.errorBody 412 "Precondition Failed"
            else CtxWrite.headerOnly 304)) ∧
      ((p.PreconditionFailed etag t).failed = false →
        (p.PreconditionFailed etag t).write = CtxWrite.noWrite) := by
  intro p etag t
  constructor
  · intro h
    rw [preconditionFailed_write, h]
    simp
  · intro h
    rw [preconditionFailed_write, h]
    simp

theorem c9_blocked_writes_response_wit :
    (Params.PreconditionFailed ⟨[], ["y"], ⟨0⟩, ⟨0⟩, true⟩ "y" ⟨1⟩).write =
      (if (⟨[], ["y"], ⟨0⟩, ⟨0⟩, true⟩ : Params).isWrite then
        CtxWrite.errorBody 412 "Precondition Failed"
      else CtxWrite.headerOnly 304) :=
  (c9_blocked_writes_response ⟨[], ["y"], ⟨0⟩, ⟨0⟩, true⟩ "y" ⟨1⟩).1 (by decide)

/-- Claim C10: a zero-valued `IfModifiedSince` or `IfUnmodifiedSince`
timestamp disables the corresponding check entirely; an evaluation whose
four conditional fields are all empty or zero always proceeds; and
`HasConditionalParams` is true exactly when at least one of the four
conditional fields is non-empty or non-zero. -/
theorem c10_zero_times_skipped_and_has_conditional :
    ∀ (p : Params) (etag : String) (t : GoTime),
      (p.ifModifiedSince.isZero = true → modSinceFails p t = false) ∧
      (p.ifUnmodifiedSince.isZero = true → unmodSinceFails p t = false) ∧
      (p.ifMatch = [] → p.ifNoneMatch = [] → p.ifModifiedSince.isZero = true →
        p.ifUnmodifiedSince.isZero = true →
        p.PreconditionFailed etag t =
          { failed := false, errors := [], write := CtxWrite.noWrite }) ∧
      (p.HasConditionalParams = true ↔
        (p.ifMatch ≠ [] ∨ p.ifNoneMatch ≠ [] ∨ p.ifModifiedSince.isZero = false ∨
          p.ifUnmodifiedSince.isZero = false)) := by
  intro p etag t
  refine ⟨?_, ?_, ?_, ?_⟩
  · intro h; unfold modSinceFails; simp [h]
  · intro h; unfold unmodSinceFails; simp [h]
  · intro h1 h2 h3 h4
    rw [preconditionFailed_eq_evalSpec]
    unfold evalSpec specErrors noneMatchFails ifMatchFails modSinceFails
      unmodSinceFails
    simp [h1, h2, h3, h4]
  · unfold Params.HasConditionalParams
    simp [List.length_pos, Bool.not_eq_true', or_assoc]

theorem c10_zero_times_skipped_and_has_conditional_wit :
    (Params.PreconditionFailed ⟨[], [], ⟨0⟩, ⟨0⟩, true⟩ "e" ⟨9⟩) =
      { failed := false, errors := [], write := CtxWrite.noWrite } :=
  (c10_zero_times_skipped_and_has_conditional ⟨[], [], ⟨0⟩, ⟨0⟩, true⟩ "e"
    ⟨9⟩).2.2.1 rfl rfl rfl rfl

end Conditional
